import Mathlib

/-!
# SolEscrow — verification of the milestone escrow engine

The repository ships the TypeScript client (`src/client/escrow-client.ts`),
the CLI, the demo frontend and two mocha test suites
(`src/tests/escrow.ts`, the bankrun suite), but not the Anchor program
itself.  The definitions below are therefore a shallow embedding of the
escrow engine modelled from the specification, with the account layout
taken from `EscrowState` / `EscrowConfig` in `src/client/escrow-client.ts`
and every behaviour that the repository's test suites pin down
(tests 1–76) followed exactly where the spec is ambiguous or, in one
case (final status of `cancel_escrow`, tests 11 and 36), contradicted.

Identities (public keys) are modelled as `Nat`, token amounts and unix
timestamps as `Nat`.  The per-agreement vault token account is carried
next to the agreement state as a plain balance; a transfer that the
vault cannot cover aborts the whole operation (`InsufficientVault`),
mirroring the atomic all-or-nothing execution of §5 and the vault
contract of §6 ("fails if `from` balance insufficient").
-/

/-- Status of one milestone, from `MilestoneStatus` in
`src/client/escrow-client.ts` (pending / approved / released / cancelled). -/
inductive MilestoneStatus where
  | pending
  | approved
  | released
  | cancelled
deriving DecidableEq, Repr

/-- One milestone, from `Milestone` in `src/client/escrow-client.ts`:
an amount in minor units, an opaque 32-byte description digest
(modelled as a `Nat`), and a status. -/
structure Milestone where
  amount : Nat
  descriptionHash : Nat
  status : MilestoneStatus
deriving DecidableEq, Repr

/-- Dispute resolution, from `DisputeResolution` in
`src/client/escrow-client.ts`: MakerWins, TakerWins, or Split with the
maker's (payer's) share in basis points. -/
inductive DisputeResolution where
  | makerWins
  | takerWins
  | split (makerBps : Nat)
deriving DecidableEq, Repr

/-- Dispute record, from `Dispute` in `src/client/escrow-client.ts`. -/
structure Dispute where
  initiator : Nat
  reasonHash : Nat
  initiatedAt : Nat
  timeout : Nat
  resolution : Option DisputeResolution
deriving DecidableEq, Repr

/-- Agreement status, from `EscrowStatus` in `src/client/escrow-client.ts`. -/
inductive EscrowStatus where
  | active
  | completed
  | disputed
  | cancelled
  | expired
deriving DecidableEq, Repr

/-- The escrow agreement record, from `EscrowState` in
`src/client/escrow-client.ts` (maker = payer, taker = original payee,
beneficiary = current claim holder; `receiptMint` is the optional
certificate handle).  The `mint`, `seed` and `bump` fields play no role
in any claim and are omitted. -/
structure EscrowState where
  maker : Nat
  taker : Nat
  beneficiary : Nat
  amount : Nat
  releasedAmount : Nat
  refundedAmount : Nat
  status : EscrowStatus
  milestones : List Milestone
  createdAt : Nat
  expiresAt : Nat
  dispute : Option Dispute
  feeBpsAtCreation : Nat
  receiptMint : Option Nat
deriving DecidableEq, Repr

/-- The config singleton, from `EscrowConfig` in
`src/client/escrow-client.ts`. -/
structure EscrowConfig where
  authority : Nat
  feeBps : Nat
  feeCollector : Nat
  disputeTimeout : Nat
deriving DecidableEq, Repr

/-- Named error conditions, as enumerated across §4 of the spec and
asserted by name throughout `src/tests/escrow.ts`.
`InsufficientVault` stands for the vault collaborator refusing a
transfer the balance cannot cover (§6); `InvalidMilestoneIndex` for an
out-of-range milestone index. -/
inductive EscrowError where
  | Unauthorized
  | InvalidFeeRate
  | InvalidDisputeTimeout
  | InvalidAuthority
  | MilestoneAmountMismatch
  | InvalidMilestoneCount
  | InvalidAmount
  | SelfEscrow
  | InvalidExpiration
  | MintHasFreezeAuthority
  | EscrowNotActive
  | EscrowExpired
  | EscrowNotExpired
  | EscrowNotTerminal
  | InvalidMilestoneIndex
  | MilestoneNotPending
  | MilestoneNotApproved
  | NoRefundableAmount
  | NotEscrowParty
  | DisputeNotActive
  | InvalidDisputeResolution
  | NotBeneficiary
  | InvalidBeneficiary
  | ReceiptExists
  | ReceiptAlreadyMinted
  | ReceiptNotBurned
  | BeneficiaryAlreadySynced
  | BeneficiaryNotSynced
  | MintMismatch
  | InsufficientVault
deriving DecidableEq, Repr

/-- Value moved out of the vault by one operation: amounts paid to the
maker (payer), to the current beneficiary, and to the fee collector. -/
structure Payout where
  toMaker : Nat
  toBeneficiary : Nat
  toFeeCollector : Nat
deriving DecidableEq, Repr

/-- Milestone input at creation, from `MilestoneInput` in
`src/client/escrow-client.ts`. -/
structure MilestoneInput where
  amount : Nat
  descriptionHash : Nat
deriving DecidableEq, Repr

/-- Protocol fee on `a` at `bps` basis points:
`a * bps / 10000` with integer division (truncation), §4.2. -/
def feeOn (a bps : Nat) : Nat := a * bps / 10000

/-- Minimum lifetime of an agreement (one hour), per the
`MIN_EXPIRATION_DURATION` comment in test 17 of `src/tests/escrow.ts`
and §3 ("a configured minimum, e.g. one hour"). -/
def MIN_EXPIRATION_DURATION : Nat := 3600

/-- Amount a milestone still keeps in custody: its amount while
Pending or Approved, nothing once Released or Cancelled. -/
def mweight (m : Milestone) : Nat :=
  match m.status with
  | .pending => m.amount
  | .approved => m.amount
  | .released => 0
  | .cancelled => 0

/-- Total amount still unsettled (Pending or Approved) in a milestone list. -/
def unsettledSum (ms : List Milestone) : Nat := (ms.map mweight).sum

/-- Sum of the amounts of the Pending milestones. -/
def pendingAmount (ms : List Milestone) : Nat :=
  (ms.map fun m => if m.status = .pending then m.amount else 0).sum

/-- Sum of the amounts of the Approved milestones. -/
def approvedAmount (ms : List Milestone) : Nat :=
  (ms.map fun m => if m.status = .approved then m.amount else 0).sum

/-- Total fee collected when every Approved milestone is released
individually, exactly as in `releaseMilestone` (§4.4 expiry settlement). -/
def approvedFeeSum (ms : List Milestone) (bps : Nat) : Nat :=
  (ms.map fun m => if m.status = .approved then feeOn m.amount bps else 0).sum

/-- `true` iff every milestone is settled (Released or Cancelled). -/
def allSettled (ms : List Milestone) : Bool :=
  ms.all fun m =>
    match m.status with
    | .released => true
    | .cancelled => true
    | _ => false

/-- `true` iff some milestone is Approved. -/
def anyApproved (ms : List Milestone) : Bool :=
  ms.any fun m => decide (m.status = .approved)

/-- Cancel a milestone if it is Pending, leave it alone otherwise
(the `cancel_escrow` refund path, §4.2). -/
def cancelPendingM (m : Milestone) : Milestone :=
  if m.status = .pending then { m with status := .cancelled } else m

/-- Mark an unsettled (Pending or Approved) milestone Cancelled
(payer-favouring settlement paths). -/
def cancelUnsettledM (m : Milestone) : Milestone :=
  match m.status with
  | .pending => { m with status := .cancelled }
  | .approved => { m with status := .cancelled }
  | _ => m

/-- Mark an unsettled (Pending or Approved) milestone Released
(beneficiary-favouring settlement paths). -/
def releaseUnsettledM (m : Milestone) : Milestone :=
  match m.status with
  | .pending => { m with status := .released }
  | .approved => { m with status := .released }
  | _ => m

/-- Expiry settlement of one milestone: Approved milestones are
released, Pending ones cancelled, settled ones untouched (§4.4). -/
def expireSettleM (m : Milestone) : Milestone :=
  match m.status with
  | .pending => { m with status := .cancelled }
  | .approved => { m with status := .released }
  | _ => m

/-- A status is terminal: Completed, Cancelled or Expired (§4.2). -/
def terminalStatus (s : EscrowStatus) : Prop :=
  s = .completed ∨ s = .cancelled ∨ s = .expired

instance (s : EscrowStatus) : Decidable (terminalStatus s) := by
  unfold terminalStatus; infer_instance

/-- Modelled from the spec: `create_escrow` of the missing Anchor
program (§4.2 `create`).  Validates the milestone list (1–5 entries,
positive amounts summing exactly to `amount`), rejects self-escrow,
a zero total, a mint carrying a freeze authority, and an expiry closer
than `MIN_EXPIRATION_DURATION`; snapshots the current fee rate into
`feeBpsAtCreation`, sets `beneficiary := taker`, locks `amount` in the
vault and starts Active.  Returns the fresh agreement state; its vault
holds `amount`. -/
def createEscrow (cfg : EscrowConfig) (maker taker : Nat) (amount : Nat)
    (ms : List MilestoneInput) (expiresAt now : Nat)
    (mintHasFreezeAuthority : Bool) : Except EscrowError EscrowState :=
  if ms.length = 0 ∨ 5 < ms.length then .error .InvalidMilestoneCount
  else if (ms.map (·.amount)).sum ≠ amount then .error .MilestoneAmountMismatch
  else if amount = 0 then .error .InvalidAmount
  else if ms.any (·.amount = 0) then .error .InvalidAmount
  else if maker = taker then .error .SelfEscrow
  else if expiresAt < now + MIN_EXPIRATION_DURATION then .error .InvalidExpiration
  else if mintHasFreezeAuthority then .error .MintHasFreezeAuthority
  else .ok
    { maker := maker
      taker := taker
      beneficiary := taker
      amount := amount
      releasedAmount := 0
      refundedAmount := 0
      status := .active
      milestones := ms.map fun mi =>
        { amount := mi.amount, descriptionHash := mi.descriptionHash
          status := .pending }
      createdAt := now
      expiresAt := expiresAt
      dispute := none
      feeBpsAtCreation := cfg.feeBps
      receiptMint := none }

/-- Modelled from the spec: `approve_milestone` of the missing Anchor
program (§4.2).  Maker-only, Active and not past expiry, milestone must
be Pending; moves it to Approved, no value movement. -/
def approveMilestone (st : EscrowState) (caller idx now : Nat) :
    Except EscrowError EscrowState :=
  if caller ≠ st.maker then .error .Unauthorized
  else if st.status ≠ .active then .error .EscrowNotActive
  else if st.expiresAt ≤ now then .error .EscrowExpired
  else
    match st.milestones.get? idx with
    | none => .error .InvalidMilestoneIndex
    | some m =>
      if m.status ≠ .pending then .error .MilestoneNotPending
      else .ok { st with
        milestones := st.milestones.set idx { m with status := .approved } }

/-- Modelled from the spec: `release_milestone` of the missing Anchor
program (§4.2).  Permissionless; agreement Active, milestone Approved;
when a certificate exists its current holder (`certHolder`, read from
the certificate registry) must equal the recorded beneficiary.  Pays
`fee = amount * feeBpsAtCreation / 10000` to the fee collector and
`amount - fee` to the beneficiary out of the vault, adds the amount to
`releasedAmount`, marks the milestone Released, and completes the
agreement once every milestone is settled with something released. -/
def releaseMilestone (st : EscrowState) (vault : Nat) (idx : Nat)
    (certHolder : Nat) (cfg : EscrowConfig) :
    Except EscrowError (EscrowState × Nat × Payout) :=
  if st.status ≠ .active then .error .EscrowNotActive
  else
    match st.milestones.get? idx with
    | none => .error .InvalidMilestoneIndex
    | some m =>
      if m.status ≠ .approved then .error .MilestoneNotApproved
      else if st.receiptMint.isSome ∧ certHolder ≠ st.beneficiary then
        .error .BeneficiaryNotSynced
      else if vault < m.amount then .error .InsufficientVault
      else
        let fee := feeOn m.amount st.feeBpsAtCreation
        let ms' := st.milestones.set idx { m with status := .released }
        let released' := st.releasedAmount + m.amount
        .ok ({ st with
                milestones := ms'
                releasedAmount := released'
                status := if allSettled ms' ∧ 0 < released' then .completed
                          else .active },
             vault - m.amount,
             { toMaker := 0
               toBeneficiary := m.amount - fee
               toFeeCollector := fee })

/-- Modelled from the spec: `cancel_escrow` of the missing Anchor
program (§4.2), with the final status following tests 11 and 36 of
`src/tests/escrow.ts`: maker-only on an Active agreement; refunds
exactly the Pending milestones (Cancelled afterwards), leaves Approved
and Released milestones intact, fails with `NoRefundableAmount` when
nothing is Pending, and becomes Cancelled iff no Approved milestone
remains (test 11 reaches Cancelled even though a milestone had been
released, contradicting the spec's "and no milestone was ever
released"; test 36 stays Active while Approved milestones remain). -/
def cancelEscrow (st : EscrowState) (vault : Nat) (caller : Nat) :
    Except EscrowError (EscrowState × Nat × Payout) :=
  if caller ≠ st.maker then .error .Unauthorized
  else if st.status ≠ .active then .error .EscrowNotActive
  else
    let refund := pendingAmount st.milestones
    if refund = 0 then .error .NoRefundableAmount
    else if vault < refund then .error .InsufficientVault
    else
      let ms' := st.milestones.map cancelPendingM
      .ok ({ st with
              milestones := ms'
              refundedAmount := st.refundedAmount + refund
              status := if anyApproved ms' then .active else .cancelled },
           vault - refund,
           { toMaker := refund, toBeneficiary := 0, toFeeCollector := 0 })

/-- Modelled from the spec: `initiate_dispute` of the missing Anchor
program (§4.3).  Caller must be a party (maker, taker, or the current
beneficiary — test 43 lets a transferred-to beneficiary dispute);
agreement must be Active.  Records the dispute with `initiatedAt = now`
and the timeout copied from the config, status becomes Disputed. -/
def initiateDispute (st : EscrowState) (cfg : EscrowConfig)
    (caller reasonHash now : Nat) : Except EscrowError EscrowState :=
  if caller ≠ st.maker ∧ caller ≠ st.taker ∧ caller ≠ st.beneficiary then
    .error .NotEscrowParty
  else if st.status ≠ .active then .error .EscrowNotActive
  else .ok { st with
    status := .disputed
    dispute := some
      { initiator := caller
        reasonHash := reasonHash
        initiatedAt := now
        timeout := cfg.disputeTimeout
        resolution := none } }

/-- Modelled from the spec: `resolve_dispute` of the missing Anchor
program (§4.3).  Authority-only, agreement Disputed, strictly before
`initiatedAt + timeout`; a Split share above 10000 bps is invalid.
Splits the remaining `R = amount - releasedAmount`:
MakerWins refunds all of `R` (status Cancelled); TakerWins pays
`R - fee` to the beneficiary with `fee = R * feeBpsAtCreation / 10000`
(status Completed); Split pays the maker `R * makerBps / 10000` fee-free
and the beneficiary the rest net of the fee on that rest (status
Completed).  Unsettled milestones are marked consistently with the
payout (all Cancelled for MakerWins, all Released otherwise — the
convention left open by §9 of the spec, irrelevant to every claim). -/
def resolveDispute (st : EscrowState) (vault : Nat) (cfg : EscrowConfig)
    (caller : Nat) (res : DisputeResolution) (now : Nat) :
    Except EscrowError (EscrowState × Nat × Payout) :=
  if caller ≠ cfg.authority then .error .Unauthorized
  else if st.status ≠ .disputed then .error .DisputeNotActive
  else
    match st.dispute with
    | none => .error .DisputeNotActive
    | some d =>
      if d.initiatedAt + d.timeout ≤ now then .error .EscrowExpired
      else if (match res with
               | .split bps => decide (10000 < bps)
               | _ => false) then
        .error .InvalidDisputeResolution
      else
        let R := st.amount - st.releasedAmount
        if vault < R then .error .InsufficientVault
        else
          let d' := some { d with resolution := some res }
          match res with
          | .makerWins =>
            .ok ({ st with
                    status := .cancelled
                    refundedAmount := st.refundedAmount + R
                    milestones := st.milestones.map cancelUnsettledM
                    dispute := d' },
                 vault - R,
                 { toMaker := R, toBeneficiary := 0, toFeeCollector := 0 })
          | .takerWins =>
            let fee := feeOn R st.feeBpsAtCreation
            .ok ({ st with
                    status := .completed
                    releasedAmount := st.releasedAmount + R
                    milestones := st.milestones.map releaseUnsettledM
                    dispute := d' },
                 vault - R,
                 { toMaker := 0, toBeneficiary := R - fee, toFeeCollector := fee })
          | .split bps =>
            let makerShare := R * bps / 10000
            let payeeTotal := R - makerShare
            let fee := feeOn payeeTotal st.feeBpsAtCreation
            .ok ({ st with
                    status := .completed
                    releasedAmount := st.releasedAmount + payeeTotal
                    refundedAmount := st.refundedAmount + makerShare
                    milestones := st.milestones.map releaseUnsettledM
                    dispute := d' },
                 vault - R,
                 { toMaker := makerShare
                   toBeneficiary := payeeTotal - fee
                   toFeeCollector := fee })

/-- Effective deadline of `claim_expired` (§4.4): the dispute deadline
`initiatedAt + timeout` while Disputed, `expiresAt` otherwise. -/
def effectiveDeadline (st : EscrowState) : Nat :=
  match st.status, st.dispute with
  | .disputed, some d => d.initiatedAt + d.timeout
  | _, _ => st.expiresAt

/-- `true` iff an unresolved dispute is active on the agreement (§4.4). -/
def disputeUnresolved (st : EscrowState) : Bool :=
  match st.status, st.dispute with
  | .disputed, some d => d.resolution.isNone
  | _, _ => false

/-- Modelled from the spec: `claim_expired` of the missing Anchor
program (§4.4).  Permissionless; fails with `EscrowNotExpired` strictly
before the effective deadline.  If an unresolved dispute was active,
the remaining escrowed amount (everything not yet released or refunded,
i.e. the vault balance) is split 50/50: half to the maker fee-free,
half to the beneficiary net of the fee at `feeBpsAtCreation`
(test 72).  Otherwise every Approved milestone is released exactly as
in `releaseMilestone` (per-milestone fee) and every Pending milestone
is refunded fee-free to the maker (test 71).  Status becomes Expired. -/
def claimExpired (st : EscrowState) (vault : Nat) (cfg : EscrowConfig)
    (now : Nat) : Except EscrowError (EscrowState × Nat × Payout) :=
  if now < effectiveDeadline st then .error .EscrowNotExpired
  else if disputeUnresolved st then
    let remaining := vault
    let makerShare := remaining / 2
    let takerTotal := remaining - makerShare
    let fee := feeOn takerTotal st.feeBpsAtCreation
    .ok ({ st with
            status := .expired
            releasedAmount := st.releasedAmount + takerTotal
            refundedAmount := st.refundedAmount + makerShare
            milestones := st.milestones.map cancelUnsettledM },
         0,
         { toMaker := makerShare
           toBeneficiary := takerTotal - fee
           toFeeCollector := fee })
  else
    let refund := pendingAmount st.milestones
    let approved := approvedAmount st.milestones
    if vault < refund + approved then .error .InsufficientVault
    else
      let fee := approvedFeeSum st.milestones st.feeBpsAtCreation
      .ok ({ st with
              status := .expired
              releasedAmount := st.releasedAmount + approved
              refundedAmount := st.refundedAmount + refund
              milestones := st.milestones.map expireSettleM },
           vault - (refund + approved),
           { toMaker := refund
             toBeneficiary := approved - fee
             toFeeCollector := fee })

/-- Modelled from the spec: `transfer_claim` of the missing Anchor
program (§4.4).  Beneficiary-only, Active, not back to the maker, and
blocked with `ReceiptExists` while a certificate handle is recorded
(test 60); sets `beneficiary := newBeneficiary`. -/
def transferClaim (st : EscrowState) (caller newBeneficiary : Nat) :
    Except EscrowError EscrowState :=
  if caller ≠ st.beneficiary then .error .NotBeneficiary
  else if st.status ≠ .active then .error .EscrowNotActive
  else if newBeneficiary = st.maker then .error .InvalidBeneficiary
  else if st.receiptMint.isSome then .error .ReceiptExists
  else .ok { st with beneficiary := newBeneficiary }

/-- Modelled from the spec: `mint_receipt` of the missing Anchor
program (§4.4 `mintCertificate`).  Beneficiary-only, Active, at most
one certificate; records the issued certificate's handle. -/
def mintReceipt (st : EscrowState) (caller handle : Nat) :
    Except EscrowError EscrowState :=
  if caller ≠ st.beneficiary then .error .NotBeneficiary
  else if st.status ≠ .active then .error .EscrowNotActive
  else if st.receiptMint.isSome then .error .ReceiptAlreadyMinted
  else .ok { st with receiptMint := some handle }

/-- Modelled from the spec: `sync_beneficiary` of the missing Anchor
program (§4.4).  Permissionless; requires a certificate to exist and
the agreement to be Active or Disputed (test 68); rejects a no-op sync;
sets the recorded beneficiary to the certificate's current holder. -/
def syncBeneficiary (st : EscrowState) (certHolder : Nat) :
    Except EscrowError EscrowState :=
  if st.receiptMint.isNone then .error .MintMismatch
  else if st.status ≠ .active ∧ st.status ≠ .disputed then
    .error .EscrowNotActive
  else if certHolder = st.beneficiary then .error .BeneficiaryAlreadySynced
  else .ok { st with beneficiary := certHolder }

/-- Modelled from the spec: `revoke_receipt` of the missing Anchor
program (§4.4 `revokeCertificate`).  Permissionless; requires the
recorded certificate to exist and its total supply (read from the
registry) to be zero; clears the certificate handle (test 64). -/
def revokeReceipt (st : EscrowState) (supply : Nat) :
    Except EscrowError EscrowState :=
  if st.receiptMint.isNone then .error .MintMismatch
  else if supply ≠ 0 then .error .ReceiptNotBurned
  else .ok { st with receiptMint := none }

/-! ## Operation steps and reachable agreement states -/

/-- One operation applied successfully to a live agreement: any caller,
any index, any certificate-registry reading, any current config and any
call time.  The vault balance travels with the agreement; operations
that move no value leave it unchanged. -/
inductive Step : EscrowState → Nat → EscrowState → Nat → Prop where
  | approve (st : EscrowState) (vault caller idx now : Nat)
      (st' : EscrowState)
      (h : approveMilestone st caller idx now = .ok st') :
      Step st vault st' vault
  | release (st : EscrowState) (vault idx certHolder : Nat)
      (cfg : EscrowConfig) (st' : EscrowState) (vault' : Nat) (p : Payout)
      (h : releaseMilestone st vault idx certHolder cfg = .ok (st', vault', p)) :
      Step st vault st' vault'
  | cancel (st : EscrowState) (vault caller : Nat)
      (st' : EscrowState) (vault' : Nat) (p : Payout)
      (h : cancelEscrow st vault caller = .ok (st', vault', p)) :
      Step st vault st' vault'
  | dispute (st : EscrowState) (vault : Nat) (cfg : EscrowConfig)
      (caller reasonHash now : Nat) (st' : EscrowState)
      (h : initiateDispute st cfg caller reasonHash now = .ok st') :
      Step st vault st' vault
  | resolve (st : EscrowState) (vault : Nat) (cfg : EscrowConfig)
      (caller : Nat) (res : DisputeResolution) (now : Nat)
      (st' : EscrowState) (vault' : Nat) (p : Payout)
      (h : resolveDispute st vault cfg caller res now = .ok (st', vault', p)) :
      Step st vault st' vault'
  | expire (st : EscrowState) (vault : Nat) (cfg : EscrowConfig) (now : Nat)
      (st' : EscrowState) (vault' : Nat) (p : Payout)
      (h : claimExpired st vault cfg now = .ok (st', vault', p)) :
      Step st vault st' vault'
  | transfer (st : EscrowState) (vault caller newBeneficiary : Nat)
      (st' : EscrowState)
      (h : transferClaim st caller newBeneficiary = .ok st') :
      Step st vault st' vault
  | mint (st : EscrowState) (vault caller handle : Nat) (st' : EscrowState)
      (h : mintReceipt st caller handle = .ok st') :
      Step st vault st' vault
  | sync (st : EscrowState) (vault certHolder : Nat) (st' : EscrowState)
      (h : syncBeneficiary st certHolder = .ok st') :
      Step st vault st' vault
  | revoke (st : EscrowState) (vault supply : Nat) (st' : EscrowState)
      (h : revokeReceipt st supply = .ok st') :
      Step st vault st' vault

/-- Agreement states (with their vault balance) reachable from a
successful creation through any sequence of successful operations,
under arbitrary callers, times and config changes. -/
inductive Reachable : EscrowState → Nat → Prop where
  | create (cfg : EscrowConfig) (maker taker amount : Nat)
      (ms : List MilestoneInput) (expiresAt now : Nat) (fz : Bool)
      (st : EscrowState)
      (h : createEscrow cfg maker taker amount ms expiresAt now fz = .ok st) :
      Reachable st st.amount
  | step (st : EscrowState) (vault : Nat) (st' : EscrowState) (vault' : Nat)
      (hr : Reachable st vault) (hs : Step st vault st' vault') :
      Reachable st' vault'

/-- The conservation invariant: accounted value plus the vault balance
equals the locked total, the vault holds exactly the unsettled
milestones, and a terminal agreement has nothing unsettled. -/
def EscrowInv (st : EscrowState) (vault : Nat) : Prop :=
  st.releasedAmount + st.refundedAmount + vault = st.amount ∧
  vault = unsettledSum st.milestones ∧
  (terminalStatus st.status → unsettledSum st.milestones = 0)

/-! ## Concrete example agreements (used by the claim witnesses) -/

/-- The config used by both test suites: 250 bps fee, a one-day dispute
timeout; identities: authority 1, fee collector 2. -/
def escrowCfgEx : EscrowConfig :=
  { authority := 1, feeBps := 250, feeCollector := 2,
    disputeTimeout := 86400 }

/-- Milestone inputs [400000, 300000, 300000] of spec §8 scenario 1. -/
def escrowMsInEx : List MilestoneInput :=
  [{ amount := 400000, descriptionHash := 21 },
   { amount := 300000, descriptionHash := 22 },
   { amount := 300000, descriptionHash := 23 }]

/-- The agreement created by maker 10 for taker 11 over 1000000 with the
scenario-1 milestones (creation time 0, expiry 7200). -/
def escrowStEx : EscrowState :=
  { maker := 10, taker := 11, beneficiary := 11, amount := 1000000,
    releasedAmount := 0, refundedAmount := 0, status := .active,
    milestones :=
      [{ amount := 400000, descriptionHash := 21, status := .pending },
       { amount := 300000, descriptionHash := 22, status := .pending },
       { amount := 300000, descriptionHash := 23, status := .pending }],
    createdAt := 0, expiresAt := 7200, dispute := none,
    feeBpsAtCreation := 250, receiptMint := none }

/-- `escrowStEx` after the maker approved milestone 0. -/
def escrowStApproved0 : EscrowState :=
  { escrowStEx with
    milestones :=
      [{ amount := 400000, descriptionHash := 21, status := .approved },
       { amount := 300000, descriptionHash := 22, status := .pending },
       { amount := 300000, descriptionHash := 23, status := .pending }] }

/-- `escrowStApproved0` after milestone 0 was released (test 11 setup). -/
def escrowStAfterRelease : EscrowState :=
  { escrowStEx with
    releasedAmount := 400000,
    milestones :=
      [{ amount := 400000, descriptionHash := 21, status := .released },
       { amount := 300000, descriptionHash := 22, status := .pending },
       { amount := 300000, descriptionHash := 23, status := .pending }] }

/-- `escrowStAfterRelease` after the maker cancelled: the two Pending
milestones are refunded and the agreement is Cancelled (test 11). -/
def escrowStC2After : EscrowState :=
  { escrowStEx with
    releasedAmount := 400000,
    refundedAmount := 600000,
    status := .cancelled,
    milestones :=
      [{ amount := 400000, descriptionHash := 21, status := .released },
       { amount := 300000, descriptionHash := 22, status := .cancelled },
       { amount := 300000, descriptionHash := 23, status := .cancelled }] }

/-- A disputed single-milestone agreement over 1000000 at 250 bps, the
dispute initiated by the taker at time 100 with the one-day timeout. -/
def escrowStDisputedEx : EscrowState :=
  { maker := 10, taker := 11, beneficiary := 11, amount := 1000000,
    releasedAmount := 0, refundedAmount := 0, status := .disputed,
    milestones :=
      [{ amount := 1000000, descriptionHash := 31, status := .pending }],
    createdAt := 0, expiresAt := 7200,
    dispute := some
      { initiator := 11, reasonHash := 99, initiatedAt := 100,
        timeout := 86400, resolution := none },
    feeBpsAtCreation := 250, receiptMint := none }

/-- A single-milestone agreement created while the fee rate was 0 bps,
its milestone already Approved (test 69). -/
def escrowStZeroFeeEx : EscrowState :=
  { maker := 10, taker := 11, beneficiary := 11, amount := 1000000,
    releasedAmount := 0, refundedAmount := 0, status := .active,
    milestones :=
      [{ amount := 1000000, descriptionHash := 41, status := .approved }],
    createdAt := 0, expiresAt := 7200, dispute := none,
    feeBpsAtCreation := 0, receiptMint := none }

/-- `escrowStEx` with a certificate (receipt NFT) handle recorded. -/
def escrowStReceiptEx : EscrowState :=
  { escrowStEx with receiptMint := some 77 }

/-- The disputed agreement with a certificate handle recorded. -/
def escrowStDisputedReceiptEx : EscrowState :=
  { escrowStDisputedEx with receiptMint := some 77 }

/-- `escrowStApproved0` after the maker cancelled: only the Pending
milestones are refunded, the Approved one stays, the agreement remains
Active (test 36). -/
def escrowStC2AmendedPost : EscrowState :=
  { escrowStEx with
    refundedAmount := 600000,
    milestones :=
      [{ amount := 400000, descriptionHash := 21, status := .approved },
       { amount := 300000, descriptionHash := 22, status := .cancelled },
       { amount := 300000, descriptionHash := 23, status := .cancelled }] }

/-! ## Milestone-sum bookkeeping lemmas -/

theorem unsettledSum_nil : unsettledSum [] = 0 := rfl

theorem unsettledSum_cons (m : Milestone) (ms : List Milestone) :
    unsettledSum (m :: ms) = mweight m + unsettledSum ms := by
  simp [unsettledSum]

theorem pendingAmount_cons (m : Milestone) (ms : List Milestone) :
    pendingAmount (m :: ms) =
      (if m.status = .pending then m.amount else 0) + pendingAmount ms := by
  simp [pendingAmount]

theorem approvedAmount_cons (m : Milestone) (ms : List Milestone) :
    approvedAmount (m :: ms) =
      (if m.status = .approved then m.amount else 0) + approvedAmount ms := by
  simp [approvedAmount]

theorem unsettledSum_eq_pending_add_approved (ms : List Milestone) :
    unsettledSum ms = pendingAmount ms + approvedAmount ms := by
  induction ms with
  | nil => rfl
  | cons m ms ih =>
    rw [unsettledSum_cons, pendingAmount_cons, approvedAmount_cons]
    cases h : m.status <;> simp [mweight, h] <;> omega

theorem unsettledSum_set (ms : List Milestone) (idx : Nat) (m m' : Milestone)
    (h : ms.get? idx = some m) :
    unsettledSum (ms.set idx m') + mweight m = unsettledSum ms + mweight m' := by
  induction ms generalizing idx with
  | nil => simp at h
  | cons a ms ih =>
    cases idx with
    | zero =>
      simp only [List.get?] at h
      cases h
      simp [List.set, unsettledSum_cons]
      omega
    | succ n =>
      simp only [List.get?] at h
      have := ih n h
      simp [List.set, unsettledSum_cons]
      omega

theorem unsettledSum_map_cancelPending (ms : List Milestone) :
    unsettledSum (ms.map cancelPendingM) = approvedAmount ms := by
  induction ms with
  | nil => rfl
  | cons m ms ih =>
    rw [List.map_cons, unsettledSum_cons, approvedAmount_cons, ih]
    cases h : m.status <;> simp [cancelPendingM, mweight, h]

theorem anyApproved_map_cancelPending (ms : List Milestone) :
    anyApproved (ms.map cancelPendingM) = anyApproved ms := by
  induction ms with
  | nil => rfl
  | cons m ms ih =>
    simp only [anyApproved, List.map_cons, List.any_cons] at ih ⊢
    rw [ih]
    cases h : m.status <;> simp [cancelPendingM, h]

theorem approvedAmount_eq_zero (ms : List Milestone)
    (h : anyApproved ms = false) : approvedAmount ms = 0 := by
  induction ms with
  | nil => rfl
  | cons m ms ih =>
    simp only [anyApproved, List.any_cons, Bool.or_eq_false_iff] at h
    rw [approvedAmount_cons, ih (by simpa [anyApproved] using h.2)]
    rcases h with ⟨h1, -⟩
    simp at h1
    simp [h1]

theorem unsettledSum_map_cancelUnsettled (ms : List Milestone) :
    unsettledSum (ms.map cancelUnsettledM) = 0 := by
  induction ms with
  | nil => rfl
  | cons m ms ih =>
    rw [List.map_cons, unsettledSum_cons, ih]
    cases h : m.status <;> simp [cancelUnsettledM, mweight, h]

theorem unsettledSum_map_releaseUnsettled (ms : List Milestone) :
    unsettledSum (ms.map releaseUnsettledM) = 0 := by
  induction ms with
  | nil => rfl
  | cons m ms ih =>
    rw [List.map_cons, unsettledSum_cons, ih]
    cases h : m.status <;> simp [releaseUnsettledM, mweight, h]

theorem unsettledSum_map_expireSettle (ms : List Milestone) :
    unsettledSum (ms.map expireSettleM) = 0 := by
  induction ms with
  | nil => rfl
  | cons m ms ih =>
    rw [List.map_cons, unsettledSum_cons, ih]
    cases h : m.status <;> simp [expireSettleM, mweight, h]

theorem unsettledSum_of_allSettled (ms : List Milestone)
    (h : allSettled ms = true) : unsettledSum ms = 0 := by
  induction ms with
  | nil => rfl
  | cons m ms ih =>
    simp only [allSettled, List.all_cons, Bool.and_eq_true] at h
    rw [unsettledSum_cons, ih (by simpa [allSettled] using h.2)]
    rcases h with ⟨h1, -⟩
    cases hs : m.status <;> simp [hs] at h1 <;> simp [mweight, hs]

theorem unsettledSum_map_pendingInput (ms : List MilestoneInput) :
    unsettledSum (ms.map fun mi =>
      { amount := mi.amount, descriptionHash := mi.descriptionHash
        status := .pending }) = (ms.map (·.amount)).sum := by
  induction ms with
  | nil => rfl
  | cons mi ms ih => rw [List.map_cons, unsettledSum_cons, ih]; rfl

/-! ## Preservation of the conservation invariant -/

theorem escrowInv_create (cfg : EscrowConfig) (maker taker amount : Nat)
    (ms : List MilestoneInput) (expiresAt now : Nat) (fz : Bool)
    (st : EscrowState)
    (h : createEscrow cfg maker taker amount ms expiresAt now fz = .ok st) :
    EscrowInv st st.amount := by
  unfold createEscrow at h
  split at h
  · simp at h
  split at h
  · simp at h
  case _ hsum _ =>
    split at h
    · simp at h
    split at h
    · simp at h
    split at h
    · simp at h
    split at h
    · simp at h
    split at h
    · simp at h
    injection h with h
    subst h
    refine ⟨by simp, ?_, by simp [terminalStatus]⟩
    simp only [unsettledSum_map_pendingInput]
    omega

theorem escrowInv_approve (st : EscrowState) (vault caller idx now : Nat)
    (st' : EscrowState) (hI : EscrowInv st vault)
    (h : approveMilestone st caller idx now = .ok st') :
    EscrowInv st' vault := by
  obtain ⟨h1, h2, h3⟩ := hI
  unfold approveMilestone at h
  split at h
  · simp at h
  split at h
  case _ hact =>
    simp at h
  case _ hact =>
    rw [not_not] at hact
    split at h
    · simp at h
    split at h
    · simp at h
    case _ m hm =>
      split at h
      · simp at h
      case _ hp =>
        rw [not_not] at hp
        injection h with h
        subst h
        have hset := unsettledSum_set st.milestones idx m
          { m with status := .approved } hm
        refine ⟨by simpa using h1, ?_, ?_⟩
        · simp only
          rw [h2] at *
          simp [mweight, hp] at hset
          omega
        · simp only [hact]
          simp [terminalStatus]

theorem escrowInv_release (st : EscrowState) (vault idx certHolder : Nat)
    (cfg : EscrowConfig) (st' : EscrowState) (vault' : Nat) (p : Payout)
    (hI : EscrowInv st vault)
    (h : releaseMilestone st vault idx certHolder cfg = .ok (st', vault', p)) :
    EscrowInv st' vault' := by
  obtain ⟨h1, h2, h3⟩ := hI
  unfold releaseMilestone at h
  split at h
  · simp at h
  split at h
  · simp at h
  case _ m hm =>
    split at h
    · simp at h
    case _ happ =>
      rw [not_not] at happ
      split at h
      · simp at h
      split at h
      case _ hvlt => simp at h
      case _ hvlt =>
        rw [Nat.not_lt] at hvlt
        simp only [Except.ok.injEq, Prod.mk.injEq] at h
        obtain ⟨h, hvault, hpay⟩ := h
        subst h hvault
        have hset := unsettledSum_set st.milestones idx m
          { m with status := .released } hm
        simp [mweight, happ] at hset
        refine ⟨by simp; omega, by simp; omega, ?_⟩
        simp only
        intro hterm
        split at hterm
        case _ hdone =>
          exact unsettledSum_of_allSettled _ hdone.1
        case _ =>
          simp [terminalStatus] at hterm

theorem escrowInv_cancel (st : EscrowState) (vault caller : Nat)
    (st' : EscrowState) (vault' : Nat) (p : Payout)
    (hI : EscrowInv st vault)
    (h : cancelEscrow st vault caller = .ok (st', vault', p)) :
    EscrowInv st' vault' := by
  obtain ⟨h1, h2, h3⟩ := hI
  unfold cancelEscrow at h
  split at h
  · simp at h
  split at h
  · simp at h
  dsimp only at h
  split at h
  · simp at h
  split at h
  case _ hvlt => simp at h
  case _ hvlt =>
    rw [Nat.not_lt] at hvlt
    simp only [Except.ok.injEq, Prod.mk.injEq] at h
    obtain ⟨h, hvault, hpay⟩ := h
    subst h hvault
    have hmap := unsettledSum_map_cancelPending st.milestones
    have hsplit := unsettledSum_eq_pending_add_approved st.milestones
    refine ⟨by simp; omega, by simp; omega, ?_⟩
    simp only
    intro hterm
    split at hterm
    case _ => simp [terminalStatus] at hterm
    case _ hnoapp =>
      rw [Bool.not_eq_true] at hnoapp
      rw [anyApproved_map_cancelPending] at hnoapp
      rw [hmap, approvedAmount_eq_zero _ hnoapp]

theorem escrowInv_dispute (st : EscrowState) (vault : Nat)
    (cfg : EscrowConfig) (caller reasonHash now : Nat) (st' : EscrowState)
    (hI : EscrowInv st vault)
    (h : initiateDispute st cfg caller reasonHash now = .ok st') :
    EscrowInv st' vault := by
  obtain ⟨h1, h2, h3⟩ := hI
  unfold initiateDispute at h
  split at h
  · simp at h
  split at h
  · simp at h
  injection h with h
  subst h
  exact ⟨h1, h2, by simp [terminalStatus]⟩

theorem escrowInv_resolve (st : EscrowState) (vault : Nat)
    (cfg : EscrowConfig) (caller : Nat) (res : DisputeResolution) (now : Nat)
    (st' : EscrowState) (vault' : Nat) (p : Payout)
    (hI : EscrowInv st vault)
    (h : resolveDispute st vault cfg caller res now = .ok (st', vault', p)) :
    EscrowInv st' vault' := by
  obtain ⟨h1, h2, h3⟩ := hI
  unfold resolveDispute at h
  split at h
  · simp at h
  split at h
  · simp at h
  split at h
  · simp at h
  case _ d hd =>
    split at h
    · simp at h
    split at h
    · simp at h
    case _ hval =>
      dsimp only at h
      split at h
      case _ hvlt => simp at h
      case _ hvlt =>
        rw [Nat.not_lt] at hvlt
        have hRle : st.amount - st.releasedAmount ≤ vault := hvlt
        split at h
        case _ =>
          -- MakerWins
          simp only [Except.ok.injEq, Prod.mk.injEq] at h
          obtain ⟨h, hvault, hpay⟩ := h
          subst h hvault
          refine ⟨by simp; omega, ?_, ?_⟩
          · simp [unsettledSum_map_cancelUnsettled]; omega
          · simp [unsettledSum_map_cancelUnsettled]
        case _ =>
          -- TakerWins
          simp only [Except.ok.injEq, Prod.mk.injEq] at h
          obtain ⟨h, hvault, hpay⟩ := h
          subst h hvault
          refine ⟨by simp; omega, ?_, ?_⟩
          · simp [unsettledSum_map_releaseUnsettled]; omega
          · simp [unsettledSum_map_releaseUnsettled]
        case _ bps =>
          -- Split
          simp only [decide_eq_true_eq] at hval
          rw [Nat.not_lt] at hval
          have hshare : st.amount - st.releasedAmount ≥
              (st.amount - st.releasedAmount) * bps / 10000 := by
            calc (st.amount - st.releasedAmount) * bps / 10000
                ≤ (st.amount - st.releasedAmount) * 10000 / 10000 :=
                  Nat.div_le_div_right (Nat.mul_le_mul_left _ hval)
              _ = st.amount - st.releasedAmount :=
                  Nat.mul_div_cancel _ (by norm_num)
          simp only [Except.ok.injEq, Prod.mk.injEq] at h
          obtain ⟨h, hvault, hpay⟩ := h
          subst h hvault
          refine ⟨by simp; omega, ?_, ?_⟩
          · simp [unsettledSum_map_releaseUnsettled]; omega
          · simp [unsettledSum_map_releaseUnsettled]

theorem escrowInv_expire (st : EscrowState) (vault : Nat)
    (cfg : EscrowConfig) (now : Nat)
    (st' : EscrowState) (vault' : Nat) (p : Payout)
    (hI : EscrowInv st vault)
    (h : claimExpired st vault cfg now = .ok (st', vault', p)) :
    EscrowInv st' vault' := by
  obtain ⟨h1, h2, h3⟩ := hI
  unfold claimExpired at h
  split at h
  · simp at h
  split at h
  case _ =>
    -- 50/50 dispute-timeout fallback
    simp only [Except.ok.injEq, Prod.mk.injEq] at h
    obtain ⟨h, hvault, hpay⟩ := h
    subst h hvault
    refine ⟨by simp; omega, ?_, ?_⟩
    · simp [unsettledSum_map_cancelUnsettled]
    · simp [unsettledSum_map_cancelUnsettled]
  case _ =>
    dsimp only at h
    split at h
    case _ hvlt => simp at h
    case _ hvlt =>
      rw [Nat.not_lt] at hvlt
      have hsplit := unsettledSum_eq_pending_add_approved st.milestones
      simp only [Except.ok.injEq, Prod.mk.injEq] at h
      obtain ⟨h, hvault, hpay⟩ := h
      subst h hvault
      refine ⟨by simp; omega, ?_, ?_⟩
      · simp [unsettledSum_map_expireSettle]; omega
      · simp [unsettledSum_map_expireSettle]

theorem escrowInv_transfer (st : EscrowState) (vault caller newB : Nat)
    (st' : EscrowState) (hI : EscrowInv st vault)
    (h : transferClaim st caller newB = .ok st') :
    EscrowInv st' vault := by
  unfold transferClaim at h
  split at h
  · simp at h
  split at h
  · simp at h
  split at h
  · simp at h
  split at h
  · simp at h
  injection h with h
  subst h
  exact hI

theorem escrowInv_mint (st : EscrowState) (vault caller handle : Nat)
    (st' : EscrowState) (hI : EscrowInv st vault)
    (h : mintReceipt st caller handle = .ok st') :
    EscrowInv st' vault := by
  unfold mintReceipt at h
  split at h
  · simp at h
  split at h
  · simp at h
  split at h
  · simp at h
  injection h with h
  subst h
  exact hI

theorem escrowInv_sync (st : EscrowState) (vault certHolder : Nat)
    (st' : EscrowState) (hI : EscrowInv st vault)
    (h : syncBeneficiary st certHolder = .ok st') :
    EscrowInv st' vault := by
  unfold syncBeneficiary at h
  split at h
  · simp at h
  split at h
  · simp at h
  split at h
  · simp at h
  injection h with h
  subst h
  exact hI

theorem escrowInv_revoke (st : EscrowState) (vault supply : Nat)
    (st' : EscrowState) (hI : EscrowInv st vault)
    (h : revokeReceipt st supply = .ok st') :
    EscrowInv st' vault := by
  unfold revokeReceipt at h
  split at h
  · simp at h
  split at h
  · simp at h
  injection h with h
  subst h
  exact hI

/-- Every successful operation preserves the conservation invariant. -/
theorem escrowInv_step (st : EscrowState) (vault : Nat) (st' : EscrowState)
    (vault' : Nat) (hI : EscrowInv st vault) (hs : Step st vault st' vault') :
    EscrowInv st' vault' :=
  match hs with
  | .approve _ _ caller idx now _ h =>
    escrowInv_approve _ _ caller idx now _ hI h
  | .release _ _ idx certHolder cfg _ _ p h =>
    escrowInv_release _ _ idx certHolder cfg _ _ p hI h
  | .cancel _ _ caller _ _ p h =>
    escrowInv_cancel _ _ caller _ _ p hI h
  | .dispute _ _ cfg caller reasonHash now _ h =>
    escrowInv_dispute _ _ cfg caller reasonHash now _ hI h
  | .resolve _ _ cfg caller res now _ _ p h =>
    escrowInv_resolve _ _ cfg caller res now _ _ p hI h
  | .expire _ _ cfg now _ _ p h =>
    escrowInv_expire _ _ cfg now _ _ p hI h
  | .transfer _ _ caller newB _ h =>
    escrowInv_transfer _ _ caller newB _ hI h
  | .mint _ _ caller handle _ h =>
    escrowInv_mint _ _ caller handle _ hI h
  | .sync _ _ certHolder _ h =>
    escrowInv_sync _ _ certHolder _ hI h
  | .revoke _ _ supply _ h =>
    escrowInv_revoke _ _ supply _ hI h

/-- Every reachable agreement state satisfies the conservation invariant. -/
theorem reachable_escrowInv (st : EscrowState) (vault : Nat)
    (hr : Reachable st vault) : EscrowInv st vault := by
  induction hr with
  | create cfg maker taker amount ms expiresAt now fz st h =>
    exact escrowInv_create cfg maker taker amount ms expiresAt now fz st h
  | step st vault st' vault' hr hs ih =>
    exact escrowInv_step st vault st' vault' ih hs

/-! ## Claim theorems -/

/-- C1: for every reachable escrow agreement,
`releasedAmount + refundedAmount` never exceeds `totalAmount` under any
sequence of operations, and once the status is terminal (Completed,
Cancelled or Expired) the sum equals `totalAmount` exactly. -/
theorem C1_conservation (st : EscrowState) (vault : Nat)
    (hr : Reachable st vault) :
    st.releasedAmount + st.refundedAmount ≤ st.amount ∧
    (terminalStatus st.status →
      st.releasedAmount + st.refundedAmount = st.amount) := by
  obtain ⟨h1, h2, h3⟩ := reachable_escrowInv st vault hr
  refine ⟨by omega, fun ht => ?_⟩
  have h0 := h3 ht
  omega

/-- Witness for C1 at the freshly created scenario-1 agreement. -/
theorem C1_conservation_witness :
    escrowStEx.releasedAmount + escrowStEx.refundedAmount ≤
      escrowStEx.amount ∧
    (terminalStatus escrowStEx.status →
      escrowStEx.releasedAmount + escrowStEx.refundedAmount =
        escrowStEx.amount) :=
  C1_conservation escrowStEx 1000000
    (Reachable.create escrowCfgEx 10 11 1000000 escrowMsInEx 7200 0 false
      escrowStEx rfl)

/-- C2 counterexample: running test 11's scenario — approve milestone 0,
release it, then cancel — the pre-cancel agreement has a Released
milestone, yet `cancelEscrow` ends with status Cancelled, not Active as
the claim states. -/
theorem C2_cancel_after_release_counterexample :
    approveMilestone escrowStEx 10 0 0 = .ok escrowStApproved0 ∧
    releaseMilestone escrowStApproved0 1000000 0 0 escrowCfgEx =
      .ok (escrowStAfterRelease, 600000,
        { toMaker := 0, toBeneficiary := 390000, toFeeCollector := 10000 }) ∧
    (escrowStAfterRelease.milestones.map Milestone.status) =
      [.released, .pending, .pending] ∧
    cancelEscrow escrowStAfterRelease 600000 10 =
      .ok (escrowStC2After, 0,
        { toMaker := 600000, toBeneficiary := 0, toFeeCollector := 0 }) ∧
    escrowStC2After.status = .cancelled ∧
    escrowStC2After.status ≠ .active := by
  refine ⟨rfl, rfl, rfl, rfl, rfl, by decide⟩

/-- C2 (amended): after a successful `cancelEscrow` the status is
Cancelled exactly when no milestone of the agreement is Approved
(no releasable value remains outstanding); otherwise it stays Active.
Whether a milestone was ever released is irrelevant. -/
theorem C2_cancel_status_amended (st : EscrowState) (vault caller : Nat)
    (st' : EscrowState) (vault' : Nat) (p : Payout)
    (h : cancelEscrow st vault caller = .ok (st', vault', p)) :
    (st'.status = .cancelled ∨ st'.status = .active) ∧
    (st'.status = .cancelled ↔ ∀ m ∈ st.milestones, m.status ≠ .approved) := by
  unfold cancelEscrow at h
  split at h
  · simp at h
  split at h
  · simp at h
  dsimp only at h
  split at h
  · simp at h
  split at h
  · simp at h
  simp only [Except.ok.injEq, Prod.mk.injEq] at h
  obtain ⟨h, hvault, hpay⟩ := h
  subst h
  dsimp only
  rw [anyApproved_map_cancelPending]
  cases happ : anyApproved st.milestones with
  | true =>
    rw [if_pos rfl]
    refine ⟨Or.inr rfl, ?_⟩
    simp only [anyApproved, List.any_eq_true, decide_eq_true_eq] at happ
    obtain ⟨m, hmem, hm⟩ := happ
    constructor
    · intro hc; exact absurd hc (by simp)
    · intro hall; exact absurd hm (hall m hmem)
  | false =>
    rw [if_neg (by simp)]
    refine ⟨Or.inl rfl, ?_⟩
    simp only [anyApproved, List.any_eq_false, decide_eq_true_eq] at happ
    exact ⟨fun _ => happ, fun _ => rfl⟩

/-- Witness for the amended C2 at test 36's scenario: cancelling while
milestone 0 is merely Approved keeps the agreement Active. -/
theorem C2_cancel_status_amended_witness :
    (escrowStC2AmendedPost.status = .cancelled ∨
      escrowStC2AmendedPost.status = .active) ∧
    (escrowStC2AmendedPost.status = .cancelled ↔
      ∀ m ∈ escrowStApproved0.milestones, m.status ≠ .approved) :=
  C2_cancel_status_amended escrowStApproved0 1000000 10
    escrowStC2AmendedPost 400000
    { toMaker := 600000, toBeneficiary := 0, toFeeCollector := 0 } rfl

/-- C3: past the effective deadline, `claimExpired` succeeds and sets
status Expired; without an active unresolved dispute it releases every
Approved milestone with the fee taken (net to the beneficiary, fee to
the collector, exactly the `releaseMilestone` arithmetic) and refunds
every Pending milestone's amount to the payer fee-free; with an active
unresolved dispute it instead splits the remaining escrowed amount `R`
50/50: `R / 2` to the payer fee-free, the other half to the beneficiary
net of the fee at `feeBpsAtCreation`. -/
theorem C3_claimExpired_settlement (st : EscrowState) (vault : Nat)
    (cfg : EscrowConfig) (now : Nat)
    (hdl : effectiveDeadline st ≤ now) :
    (disputeUnresolved st = false →
      pendingAmount st.milestones + approvedAmount st.milestones ≤ vault →
      ∃ st', claimExpired st vault cfg now =
        .ok (st',
          vault - (pendingAmount st.milestones + approvedAmount st.milestones),
          { toMaker := pendingAmount st.milestones
            toBeneficiary := approvedAmount st.milestones -
              approvedFeeSum st.milestones st.feeBpsAtCreation
            toFeeCollector :=
              approvedFeeSum st.milestones st.feeBpsAtCreation }) ∧
        st'.status = .expired ∧
        st'.milestones = st.milestones.map expireSettleM) ∧
    (disputeUnresolved st = true →
      ∃ st', claimExpired st vault cfg now =
        .ok (st', 0,
          { toMaker := vault / 2
            toBeneficiary := (vault - vault / 2) -
              feeOn (vault - vault / 2) st.feeBpsAtCreation
            toFeeCollector := feeOn (vault - vault / 2) st.feeBpsAtCreation }) ∧
        st'.status = .expired) := by
  constructor
  · intro hnd hv
    refine ⟨{ st with
        status := .expired
        releasedAmount := st.releasedAmount + approvedAmount st.milestones
        refundedAmount := st.refundedAmount + pendingAmount st.milestones
        milestones := st.milestones.map expireSettleM }, ?_, rfl, rfl⟩
    unfold claimExpired
    rw [if_neg (by omega), if_neg (by simp [hnd])]
    dsimp only
    rw [if_neg (by omega)]
  · intro hd
    refine ⟨{ st with
        status := .expired
        releasedAmount := st.releasedAmount + (vault - vault / 2)
        refundedAmount := st.refundedAmount + vault / 2
        milestones := st.milestones.map cancelUnsettledM }, ?_, rfl⟩
    unfold claimExpired
    rw [if_neg (by omega), if_pos hd]

/-- Witness for C3: test 71 (milestone 0 approved, two pending: maker
refunded 600000, beneficiary 390000, fee 10000) and test 72 (disputed,
remaining 1000000 at 250 bps: maker 500000, beneficiary 487500,
fee 12500). -/
theorem C3_claimExpired_settlement_witness :
    (∃ st', claimExpired escrowStApproved0 1000000 escrowCfgEx 7200 =
      .ok (st', 0, Payout.mk 600000 390000 10000) ∧
      st'.status = .expired ∧
      st'.milestones = escrowStApproved0.milestones.map expireSettleM) ∧
    (∃ st', claimExpired escrowStDisputedEx 1000000 escrowCfgEx 86500 =
      .ok (st', 0, Payout.mk 500000 487500 12500) ∧
      st'.status = .expired) :=
  ⟨(C3_claimExpired_settlement escrowStApproved0 1000000 escrowCfgEx 7200
      (by decide)).1 (by decide) (by decide),
   (C3_claimExpired_settlement escrowStDisputedEx 1000000 escrowCfgEx 86500
      (by decide)).2 (by decide)⟩

/-- C4: on an Active agreement, releasing an Approved milestone of
amount `a` pays `fee = a * feeBpsAtCreation / 10000` (truncating) to
the fee collector and `a - fee` to the current beneficiary, and adds
`a` to `releasedAmount`. -/
theorem C4_release_fee (st : EscrowState) (vault idx certHolder : Nat)
    (cfg : EscrowConfig) (m : Milestone)
    (hact : st.status = .active)
    (hm : st.milestones.get? idx = some m)
    (happ : m.status = .approved)
    (hsync : st.receiptMint = none ∨ certHolder = st.beneficiary)
    (hv : m.amount ≤ vault) :
    ∃ st', releaseMilestone st vault idx certHolder cfg =
        .ok (st', vault - m.amount,
          { toMaker := 0
            toBeneficiary :=
              m.amount - m.amount * st.feeBpsAtCreation / 10000
            toFeeCollector := m.amount * st.feeBpsAtCreation / 10000 }) ∧
      st'.releasedAmount = st.releasedAmount + m.amount := by
  have hsy : ¬(st.receiptMint.isSome ∧ certHolder ≠ st.beneficiary) := by
    rcases hsync with hnone | hhold
    · simp [hnone]
    · simp [hhold]
  refine ⟨{ st with
      milestones := st.milestones.set idx { m with status := .released }
      releasedAmount := st.releasedAmount + m.amount
      status :=
        if allSettled (st.milestones.set idx { m with status := .released })
            ∧ 0 < st.releasedAmount + m.amount then .completed
        else .active }, ?_, rfl⟩
  unfold releaseMilestone
  rw [if_neg (by simp [hact]), hm]
  dsimp only
  rw [if_neg (by simp [happ]), if_neg hsy, if_neg (by omega)]
  rfl

/-- Witness for C4: milestone of 400000 at 250 bps pays the beneficiary
390000 and the collector 10000 (test 9 arithmetic); at 0 bps the
beneficiary receives the full 1000000 and the collector nothing
(test 69). -/
theorem C4_release_fee_witness :
    (∃ st', releaseMilestone escrowStApproved0 1000000 0 0 escrowCfgEx =
        .ok (st', 600000, Payout.mk 0 390000 10000) ∧
      st'.releasedAmount = 400000) ∧
    (∃ st', releaseMilestone escrowStZeroFeeEx 1000000 0 0 escrowCfgEx =
        .ok (st', 0, Payout.mk 0 1000000 0) ∧
      st'.releasedAmount = 1000000) :=
  ⟨C4_release_fee escrowStApproved0 1000000 0 0 escrowCfgEx
      { amount := 400000, descriptionHash := 21, status := .approved }
      rfl rfl rfl (Or.inl rfl) (by decide),
   C4_release_fee escrowStZeroFeeEx 1000000 0 0 escrowCfgEx
      { amount := 1000000, descriptionHash := 41, status := .approved }
      rfl rfl rfl (Or.inl rfl) (by decide)⟩

/-- C5: on a Disputed agreement with unreleased remainder
`R = amount - releasedAmount` (resolved by the authority strictly
before the dispute deadline, with the vault covering `R`):
MakerWins refunds all of `R` to the payer fee-free and ends Cancelled;
TakerWins pays `R` minus its fee to the beneficiary and ends Completed;
Split{makerBps ≤ 10000} pays the payer `R * makerBps / 10000` fee-free
and, of `payeeTotal = R - payerShare`, pays
`fee = payeeTotal * feeBpsAtCreation / 10000` to the collector and
`payeeTotal - fee` to the beneficiary, ending Completed. -/
theorem C5_resolveDispute_payouts (st : EscrowState) (vault : Nat)
    (cfg : EscrowConfig) (caller now : Nat) (d : Dispute)
    (hauth : caller = cfg.authority)
    (hst : st.status = .disputed)
    (hd : st.dispute = some d)
    (htime : now < d.initiatedAt + d.timeout)
    (hR : st.amount - st.releasedAmount ≤ vault) :
    (∃ st', resolveDispute st vault cfg caller .makerWins now =
        .ok (st', vault - (st.amount - st.releasedAmount),
          { toMaker := st.amount - st.releasedAmount
            toBeneficiary := 0, toFeeCollector := 0 }) ∧
      st'.status = .cancelled) ∧
    (∃ st', resolveDispute st vault cfg caller .takerWins now =
        .ok (st', vault - (st.amount - st.releasedAmount),
          { toMaker := 0
            toBeneficiary := (st.amount - st.releasedAmount) -
              feeOn (st.amount - st.releasedAmount) st.feeBpsAtCreation
            toFeeCollector :=
              feeOn (st.amount - st.releasedAmount) st.feeBpsAtCreation }) ∧
      st'.status = .completed) ∧
    (∀ bps, bps ≤ 10000 →
      ∃ st', resolveDispute st vault cfg caller (.split bps) now =
        .ok (st', vault - (st.amount - st.releasedAmount),
          { toMaker := (st.amount - st.releasedAmount) * bps / 10000
            toBeneficiary :=
              ((st.amount - st.releasedAmount) -
                (st.amount - st.releasedAmount) * bps / 10000) -
              feeOn ((st.amount - st.releasedAmount) -
                (st.amount - st.releasedAmount) * bps / 10000)
                st.feeBpsAtCreation
            toFeeCollector :=
              feeOn ((st.amount - st.releasedAmount) -
                (st.amount - st.releasedAmount) * bps / 10000)
                st.feeBpsAtCreation }) ∧
        st'.status = .completed) := by
  refine ⟨⟨{ st with
      status := .cancelled
      refundedAmount :=
        st.refundedAmount + (st.amount - st.releasedAmount)
      milestones := st.milestones.map cancelUnsettledM
      dispute := some { d with resolution := some .makerWins } }, ?_, rfl⟩,
    ⟨{ st with
      status := .completed
      releasedAmount :=
        st.releasedAmount + (st.amount - st.releasedAmount)
      milestones := st.milestones.map releaseUnsettledM
      dispute := some { d with resolution := some .takerWins } }, ?_, rfl⟩,
    fun bps hbps => ⟨{ st with
      status := .completed
      releasedAmount := st.releasedAmount +
        ((st.amount - st.releasedAmount) -
          (st.amount - st.releasedAmount) * bps / 10000)
      refundedAmount := st.refundedAmount +
        (st.amount - st.releasedAmount) * bps / 10000
      milestones := st.milestones.map releaseUnsettledM
      dispute := some { d with resolution := some (.split bps) } }, ?_, rfl⟩⟩
  · unfold resolveDispute
    rw [if_neg (by simp [hauth]), if_neg (by simp [hst]), hd]
    dsimp only
    rw [if_neg (by omega), if_neg (by simp), if_neg (by omega)]
  · unfold resolveDispute
    rw [if_neg (by simp [hauth]), if_neg (by simp [hst]), hd]
    dsimp only
    rw [if_neg (by omega), if_neg (by simp), if_neg (by omega)]
  · unfold resolveDispute
    rw [if_neg (by simp [hauth]), if_neg (by simp [hst]), hd]
    dsimp only
    rw [if_neg (by omega), if_neg (by simp; omega), if_neg (by omega)]

/-- Witness for C5 on the disputed 1000000 agreement at 250 bps:
MakerWins refunds 1000000 (Cancelled); TakerWins pays 975000 plus a
25000 fee (Completed); Split{5000} pays maker 500000, beneficiary
487500, collector 12500 (test 16, spec §8 scenario 3). -/
theorem C5_resolveDispute_payouts_witness :
    (∃ st', resolveDispute escrowStDisputedEx 1000000 escrowCfgEx 1
        .makerWins 100 =
      .ok (st', 0, Payout.mk 1000000 0 0) ∧ st'.status = .cancelled) ∧
    (∃ st', resolveDispute escrowStDisputedEx 1000000 escrowCfgEx 1
        .takerWins 100 =
      .ok (st', 0, Payout.mk 0 975000 25000) ∧ st'.status = .completed) ∧
    (∃ st', resolveDispute escrowStDisputedEx 1000000 escrowCfgEx 1
        (.split 5000) 100 =
      .ok (st', 0, Payout.mk 500000 487500 12500) ∧
      st'.status = .completed) := by
  have h := C5_resolveDispute_payouts escrowStDisputedEx 1000000
    escrowCfgEx 1 100
    (Dispute.mk 11 99 100 86400 none)
    rfl rfl rfl (by decide) (by decide)
  exact ⟨h.1, h.2.1, h.2.2 5000 (by decide)⟩

/-- C6: `claimExpired` takes no caller and is gated by the effective
deadline — `initiatedAt + timeout` while Disputed, `expiresAt`
otherwise: on every reachable agreement a call strictly before the
deadline fails with `EscrowNotExpired` (returning no new state, so the
agreement is unchanged) and a call at or after it succeeds. -/
theorem C6_claimExpired_deadline (st : EscrowState) (vault : Nat)
    (cfg : EscrowConfig) (now : Nat) (hr : Reachable st vault) :
    (now < effectiveDeadline st →
      claimExpired st vault cfg now = .error .EscrowNotExpired) ∧
    (effectiveDeadline st ≤ now →
      ∃ r, claimExpired st vault cfg now = .ok r) ∧
    (∀ d, st.status = .disputed → st.dispute = some d →
      effectiveDeadline st = d.initiatedAt + d.timeout) ∧
    (st.status ≠ .disputed → effectiveDeadline st = st.expiresAt) := by
  obtain ⟨h1, h2, h3⟩ := reachable_escrowInv st vault hr
  refine ⟨fun hlt => ?_, fun hge => ?_, fun d hds hd => ?_, fun hnd => ?_⟩
  · unfold claimExpired
    rw [if_pos hlt]
  · unfold claimExpired
    rw [if_neg (by omega)]
    cases hdu : disputeUnresolved st with
    | true =>
      rw [if_pos rfl]
      exact ⟨_, rfl⟩
    | false =>
      rw [if_neg (by simp)]
      have hvlt : ¬(vault <
          pendingAmount st.milestones + approvedAmount st.milestones) := by
        have := unsettledSum_eq_pending_add_approved st.milestones
        omega
      exact ⟨_, by simp only [if_neg hvlt]; rfl⟩
  · unfold effectiveDeadline
    rw [hds, hd]
  · unfold effectiveDeadline
    cases hs : st.status
    case disputed => exact absurd hs hnd
    all_goals rfl

/-- Witness for C6 on the freshly created scenario-1 agreement
(expiry 7200): calling at time 0 fails with `EscrowNotExpired`,
calling at time 7200 succeeds. -/
theorem C6_claimExpired_deadline_witness :
    claimExpired escrowStEx 1000000 escrowCfgEx 0 =
      .error .EscrowNotExpired ∧
    (∃ r, claimExpired escrowStEx 1000000 escrowCfgEx 7200 = .ok r) := by
  have hre : Reachable escrowStEx 1000000 :=
    Reachable.create escrowCfgEx 10 11 1000000 escrowMsInEx 7200 0 false
      escrowStEx rfl
  exact ⟨(C6_claimExpired_deadline escrowStEx 1000000 escrowCfgEx 0 hre).1
      (by decide),
    (C6_claimExpired_deadline escrowStEx 1000000 escrowCfgEx 7200 hre).2.1
      (by decide)⟩

/-- C7: `resolveDispute` fails with Unauthorized when the caller is not
the config authority, with DisputeNotActive when the agreement is not
Disputed, with EscrowExpired when the call is not strictly before
`initiatedAt + timeout`, and with InvalidDisputeResolution for
Split{bps} with bps > 10000; every failure returns an error and hence
changes no state and moves no value. -/
theorem C7_resolveDispute_errors (st : EscrowState) (vault : Nat)
    (cfg : EscrowConfig) (caller : Nat) (res : DisputeResolution)
    (now : Nat) :
    (caller ≠ cfg.authority →
      resolveDispute st vault cfg caller res now = .error .Unauthorized) ∧
    (caller = cfg.authority → st.status ≠ .disputed →
      resolveDispute st vault cfg caller res now =
        .error .DisputeNotActive) ∧
    (∀ d, caller = cfg.authority → st.status = .disputed →
      st.dispute = some d → d.initiatedAt + d.timeout ≤ now →
      resolveDispute st vault cfg caller res now = .error .EscrowExpired) ∧
    (∀ d bps, caller = cfg.authority → st.status = .disputed →
      st.dispute = some d → now < d.initiatedAt + d.timeout → 10000 < bps →
      resolveDispute st vault cfg caller (.split bps) now =
        .error .InvalidDisputeResolution) := by
  refine ⟨fun hne => ?_, fun hauth hnds => ?_,
    fun d hauth hds hd hlate => ?_,
    fun d bps hauth hds hd hearly hbps => ?_⟩
  · unfold resolveDispute
    rw [if_pos hne]
  · unfold resolveDispute
    rw [if_neg (by simp [hauth]), if_pos hnds]
  · unfold resolveDispute
    rw [if_neg (by simp [hauth]), if_neg (by simp [hds]), hd]
    dsimp only
    rw [if_pos hlate]
  · unfold resolveDispute
    rw [if_neg (by simp [hauth]), if_neg (by simp [hds]), hd]
    dsimp only
    rw [if_neg (by omega), if_pos (by simp [hbps])]

/-- Witness for C7 on concrete agreements: a stranger caller, an Active
agreement, a call at the dispute deadline, and Split{10001}. -/
theorem C7_resolveDispute_errors_witness :
    resolveDispute escrowStDisputedEx 1000000 escrowCfgEx 999
      .makerWins 100 = .error .Unauthorized ∧
    resolveDispute escrowStEx 1000000 escrowCfgEx 1 .makerWins 100 =
      .error .DisputeNotActive ∧
    resolveDispute escrowStDisputedEx 1000000 escrowCfgEx 1
      .makerWins 86500 = .error .EscrowExpired ∧
    resolveDispute escrowStDisputedEx 1000000 escrowCfgEx 1
      (.split 10001) 100 = .error .InvalidDisputeResolution :=
  ⟨(C7_resolveDispute_errors escrowStDisputedEx 1000000 escrowCfgEx 999
      .makerWins 100).1 (by decide),
   (C7_resolveDispute_errors escrowStEx 1000000 escrowCfgEx 1
      .makerWins 100).2.1 rfl (by decide),
   (C7_resolveDispute_errors escrowStDisputedEx 1000000 escrowCfgEx 1
      .makerWins 86500).2.2.1 (Dispute.mk 11 99 100 86400 none)
      rfl rfl rfl (by decide),
   (C7_resolveDispute_errors escrowStDisputedEx 1000000 escrowCfgEx 1
      (.split 10001) 100).2.2.2 (Dispute.mk 11 99 100 86400 none) 10001
      rfl rfl rfl (by decide) (by decide)⟩

/-- C8: the current FeeConfig `feeBps` never enters any settlement of
an existing agreement — running `releaseMilestone`, `resolveDispute` or
`claimExpired` against a config whose `feeBps` was changed arbitrarily
yields the identical result (same transfers, same post-state), because
every fee is computed from the agreement's `feeBpsAtCreation`
snapshot. -/
theorem C8_fee_snapshot (st : EscrowState) (vault : Nat)
    (cfg : EscrowConfig) (newBps idx certHolder caller : Nat)
    (res : DisputeResolution) (now : Nat) :
    releaseMilestone st vault idx certHolder
        { cfg with feeBps := newBps } =
      releaseMilestone st vault idx certHolder cfg ∧
    resolveDispute st vault { cfg with feeBps := newBps } caller res now =
      resolveDispute st vault cfg caller res now ∧
    claimExpired st vault { cfg with feeBps := newBps } now =
      claimExpired st vault cfg now :=
  ⟨rfl, rfl, rfl⟩

/-- C9: while a certificate handle is recorded, `transferClaim` cannot
succeed for any caller, and fails with `ReceiptExists` for the
beneficiary's otherwise-valid call; `revokeReceipt` fails with
`ReceiptNotBurned` while the certificate supply is nonzero, and once
the supply is zero it clears the handle, after which the beneficiary's
`transferClaim` succeeds again. -/
theorem C9_receipt_gating (st : EscrowState) (handle supply newB : Nat)
    (hmint : st.receiptMint = some handle) :
    (∀ caller newBeneficiary r,
      transferClaim st caller newBeneficiary ≠ .ok r) ∧
    (st.status = .active → newB ≠ st.maker →
      transferClaim st st.beneficiary newB = .error .ReceiptExists) ∧
    (supply ≠ 0 → revokeReceipt st supply = .error .ReceiptNotBurned) ∧
    (supply = 0 →
      revokeReceipt st supply = .ok { st with receiptMint := none } ∧
      (st.status = .active → newB ≠ st.maker →
        transferClaim { st with receiptMint := none } st.beneficiary newB =
          .ok { st with receiptMint := none, beneficiary := newB })) := by
  refine ⟨fun caller newBf r => ?_, fun hact hnb => ?_, fun hs => ?_,
    fun hs0 => ⟨?_, fun hact hnb => ?_⟩⟩
  · unfold transferClaim
    split
    · simp
    split
    · simp
    split
    · simp
    rw [if_pos (by simp [hmint])]
    simp
  · unfold transferClaim
    rw [if_neg (by simp), if_neg (by simp [hact]), if_neg hnb,
      if_pos (by simp [hmint])]
  · unfold revokeReceipt
    rw [if_neg (by simp [hmint]), if_pos hs]
  · unfold revokeReceipt
    rw [if_neg (by simp [hmint]), if_neg (by simp [hs0])]
  · unfold transferClaim
    rw [if_neg (by simp), if_neg (by simp [hact]), if_neg (by simpa using hnb),
      if_neg (by simp)]

/-- Witness for C9 on the scenario-1 agreement carrying certificate
handle 77 (tests 60, 64, 65). -/
theorem C9_receipt_gating_witness :
    transferClaim escrowStReceiptEx 11 12 = .error .ReceiptExists ∧
    revokeReceipt escrowStReceiptEx 1 = .error .ReceiptNotBurned ∧
    revokeReceipt escrowStReceiptEx 0 =
      .ok { escrowStReceiptEx with receiptMint := none } ∧
    transferClaim { escrowStReceiptEx with receiptMint := none } 11 12 =
      .ok { escrowStReceiptEx with
            receiptMint := none, beneficiary := 12 } := by
  have h1 := C9_receipt_gating escrowStReceiptEx 77 1 12 rfl
  have h0 := C9_receipt_gating escrowStReceiptEx 77 0 12 rfl
  exact ⟨h1.2.1 rfl (by decide), h1.2.2.1 (by decide),
    (h0.2.2.2 rfl).1, (h0.2.2.2 rfl).2 rfl (by decide)⟩

/-- C10: a successful `syncBeneficiary` (certificate recorded, status
Active or Disputed, holder differs from the recorded beneficiary)
changes only the beneficiary field, setting it to the certificate
holder; status (Disputed stays Disputed), milestones, all amount
fields, the dispute record and the certificate handle are unchanged. -/
theorem C10_sync_frame (st : EscrowState) (certHolder handle : Nat)
    (hmint : st.receiptMint = some handle)
    (hst : st.status = .active ∨ st.status = .disputed)
    (hdiff : certHolder ≠ st.beneficiary) :
    ∃ st', syncBeneficiary st certHolder = .ok st' ∧
      st'.beneficiary = certHolder ∧
      st'.status = st.status ∧
      st'.milestones = st.milestones ∧
      st'.amount = st.amount ∧
      st'.releasedAmount = st.releasedAmount ∧
      st'.refundedAmount = st.refundedAmount ∧
      st'.dispute = st.dispute ∧
      st'.receiptMint = st.receiptMint ∧
      st'.maker = st.maker ∧
      st'.taker = st.taker ∧
      st'.expiresAt = st.expiresAt ∧
      st'.createdAt = st.createdAt ∧
      st'.feeBpsAtCreation = st.feeBpsAtCreation := by
  have hstatus : ¬(st.status ≠ .active ∧ st.status ≠ .disputed) := by
    rcases hst with h | h <;> simp [h]
  refine ⟨{ st with beneficiary := certHolder }, ?_, rfl, rfl, rfl, rfl,
    rfl, rfl, rfl, rfl, rfl, rfl, rfl, rfl, rfl⟩
  unfold syncBeneficiary
  rw [if_neg (by simp [hmint]), if_neg hstatus, if_neg hdiff]

/-- Witness for C10 on the disputed agreement with certificate handle
77: syncing to holder 12 keeps it Disputed and changes nothing but the
beneficiary (test 68). -/
theorem C10_sync_frame_witness :
    ∃ st', syncBeneficiary escrowStDisputedReceiptEx 12 = .ok st' ∧
      st'.beneficiary = 12 ∧
      st'.status = escrowStDisputedReceiptEx.status ∧
      st'.milestones = escrowStDisputedReceiptEx.milestones ∧
      st'.amount = escrowStDisputedReceiptEx.amount ∧
      st'.releasedAmount = escrowStDisputedReceiptEx.releasedAmount ∧
      st'.refundedAmount = escrowStDisputedReceiptEx.refundedAmount ∧
      st'.dispute = escrowStDisputedReceiptEx.dispute ∧
      st'.receiptMint = escrowStDisputedReceiptEx.receiptMint ∧
      st'.maker = escrowStDisputedReceiptEx.maker ∧
      st'.taker = escrowStDisputedReceiptEx.taker ∧
      st'.expiresAt = escrowStDisputedReceiptEx.expiresAt ∧
      st'.createdAt = escrowStDisputedReceiptEx.createdAt ∧
      st'.feeBpsAtCreation = escrowStDisputedReceiptEx.feeBpsAtCreation :=
  C10_sync_frame escrowStDisputedReceiptEx 12 77 rfl (Or.inr rfl)
    (by decide)
